import Mathlib

/-!
Verification of the credit-decision-memory pipeline.

Shallow embedding of the repository's core logic:
* `src/similarity_engine.py` — `find_similar_loans`: aggregation of the
  Qdrant nearest-neighbour results into a decision summary.  The Qdrant
  round-trip itself is external I/O, so the embedding takes the outcome of
  `client.search` (either a list of `(payload, score)` pairs or a raised
  exception message) as an explicit argument.
* `src/synthetic_time_shift.py` — the time-aware outcome labelling of the
  historical corpus (`loan_age_months` and the sequential `df.loc`
  assignments producing `loan_outcome`).
* `src/ui_app.py` — the risk-segment classification and the
  debt-to-income derivation of the input form.
* `src/qdrant_ingest.py` — the batched ingestion loop assigning point ids
  and building payloads.
* `src/vectorizing.py` — the fitted preprocessor
  (`StandardScaler` + `OneHotEncoder(handle_unknown="ignore")` inside a
  `ColumnTransformer`).  The scikit-learn transformers are an external
  library, not part of `src/`; their transform-time semantics are modelled
  from the spec's FeatureEncoder contract (standardize numerics, one-hot
  with the fit-time vocabulary, unknown category to an all-zero block).

Python floats are modelled as exact rationals (`ℚ`), Python ints as `ℤ`
or `Nat`, nullable values as `Option`, raised exceptions as `Except`.
-/

/-- Payload attached to an indexed point, as built in
`src/qdrant_ingest.py` lines 51–63 (the dict written for each row) and read
back by `find_similar_loans` via `p.get("loan_outcome")` /
`p.get("fraud_flag", 0)`. -/
structure Payload where
  application_id : String
  loan_status : String
  loan_outcome : String
  fraud_flag : Int
  fraud_type : String
  loan_type : String
  purpose_of_loan : String
  time_to_default_months : Option Int
deriving Inhabited, DecidableEq

/-- The decision summary returned by `find_similar_loans`
(`src/similarity_engine.py` lines 83–109): the dict with keys
`total_cases`, `repaid_pct`, `defaulted_pct`, `in_progress_pct`,
`fraud_cases`, `avg_similarity`, `cases`. -/
structure Summary where
  total_cases : Nat
  repaid_pct : ℚ
  defaulted_pct : ℚ
  in_progress_pct : ℚ
  fraud_cases : Int
  avg_similarity : ℚ
  cases : List Payload
deriving Inhabited, DecidableEq

/-- `find_similar_loans` (`src/similarity_engine.py` lines 56–109), from
the point where the query vector has been sent to Qdrant.  `searchOutcome`
is the outcome of `client.search`: `Except.error e` models the client
raising an exception whose message is `e`, `Except.ok results` models a
successful reply, a ranked list of `(payload, score)` pairs.  The
`try`/`except` re-raises as `RuntimeError("Qdrant search failed: " + e)`;
an empty result list returns the zero-filled summary; otherwise the
percentages count the exact strings `"Repaid"`, `"Defaulted"`,
`"In Progress"` among the payload outcomes. -/
def find_similar_loans (searchOutcome : Except String (List (Payload × ℚ))) :
    Except String Summary :=
  match searchOutcome with
  | Except.error e => Except.error ("Qdrant search failed: " ++ e)
  | Except.ok results =>
    let payloads := results.map Prod.fst
    let scores := results.map Prod.snd
    if payloads.isEmpty then
      Except.ok
        { total_cases := 0
          repaid_pct := 0
          defaulted_pct := 0
          in_progress_pct := 0
          fraud_cases := 0
          avg_similarity := 0
          cases := [] }
    else
      let outcomes := payloads.map Payload.loan_outcome
      let frauds := payloads.map Payload.fraud_flag
      let total := outcomes.length
      Except.ok
        { total_cases := total
          repaid_pct := (outcomes.count "Repaid" : ℚ) / (total : ℚ) * 100
          defaulted_pct := (outcomes.count "Defaulted" : ℚ) / (total : ℚ) * 100
          in_progress_pct := (outcomes.count "In Progress" : ℚ) / (total : ℚ) * 100
          fraud_cases := frauds.sum
          avg_similarity := scores.sum / (scores.length : ℚ)
          cases := payloads }

/-- The loan age in months computed in `src/synthetic_time_shift.py`
lines 29–31: `((TODAY - shifted_application_date).dt.days / 30.44).round(1)`.
`days` is the day count between the reference current date and the shifted
application date.  `.round(1)` rounds to one decimal; pandas rounds
half-to-even, Mathlib's `round` half-up, but `days * 250 / 761` is never an
exact half-integer (761 is odd and coprime to 500), so the two modes agree
on every input of this function. -/
def loan_age_months (days : Int) : ℚ :=
  ((round ((days : ℚ) / (30.44 : ℚ) * 10) : ℤ) : ℚ) / 10

/-- The early-default condition of `src/synthetic_time_shift.py` line 40:
`time_to_default_months.notna() & (time_to_default_months <= 6)`. -/
def earlyDefault (ttd : Option Int) : Bool :=
  match ttd with
  | none => false
  | some t => decide (t ≤ 6)

/-- The time-aware outcome label of `src/synthetic_time_shift.py`
lines 36–51: the column is initialised to `"In_Progress"`, rows matching
`fraud_flag == 1` or the early-default condition are overwritten with
`"Defaulted"`, then rows matching `loan_age_months >= loan_tenure_months`
and `fraud_flag == 0` and not early-default are overwritten with
`"Repaid"`.  The sequential `df.loc` assignments are mirrored literally:
the last matching assignment wins. -/
def loan_outcome (fraud_flag : Int) (ttd : Option Int)
    (loan_age tenure : ℚ) : String :=
  let afterInit := "In_Progress"
  let afterDefaulted :=
    if fraud_flag = 1 ∨ earlyDefault ttd then "Defaulted" else afterInit
  if tenure ≤ loan_age ∧ fraud_flag = 0 ∧ ¬ (earlyDefault ttd = true) then
    "Repaid"
  else afterDefaulted

/-- Risk-segment classification of `src/ui_app.py` lines 130–141:
`defaulted_pct > 60` gives High, `elif defaulted_pct > 30` Moderate,
`else` Low. -/
def risk_segment (defaulted_pct : ℚ) : String :=
  if defaulted_pct > 60 then "High Risk (Similarity-Based)"
  else if defaulted_pct > 30 then "Moderate Risk (Similarity-Based)"
  else "Low Risk (Similarity-Based)"

/-- Debt-to-income derivation of `src/ui_app.py` lines 96–97:
`existing_emis / monthly_income if monthly_income > 0 else 0`. -/
def debt_to_income (existing_emis monthly_income : ℚ) : ℚ :=
  if monthly_income > 0 then existing_emis / monthly_income else 0

/-! ### Feature encoder (`src/vectorizing.py`)

The repository configures `ColumnTransformer([("num", StandardScaler(),
numerical_features), ("cat", OneHotEncoder(handle_unknown="ignore"),
categorical_features)])` and fits it once.  The transformers themselves
live in scikit-learn, outside `src/`.  Modelled from the spec: the fitted
artifact is a bundle of per-numeric-field (mean, stddev) statistics and a
per-categorical-field vocabulary, in the fixed feature order of
`vectorizing.py`; `transform` standardizes each numeric field (stddev 0
gives output 0) and one-hot encodes each categorical field against its
fit-time vocabulary, an unknown value giving an all-zero block. -/

/-- A fitted preprocessor artifact: `(mean, stddev)` per numeric feature
and the fit-time category vocabulary per categorical feature, in the
feature order fixed by `src/vectorizing.py`. -/
structure FittedEncoder where
  numStats : List (ℚ × ℚ)
  catVocabs : List (List String)
deriving Inhabited, DecidableEq

/-- Modelled from the spec: `StandardScaler` transform of one numeric
value, `(value − mean) / stddev`, with a zero stddev giving 0. -/
def scaleNum (stat : ℚ × ℚ) (x : ℚ) : ℚ :=
  if stat.2 = 0 then 0 else (x - stat.1) / stat.2

/-- Modelled from the spec: `OneHotEncoder(handle_unknown="ignore")`
transform of one categorical value against one field's fit-time
vocabulary: an indicator per known category, in vocabulary order; a value
outside the vocabulary matches no indicator. -/
def oneHotBlock (vocab : List String) (v : String) : List ℚ :=
  vocab.map (fun c => if c = v then 1 else 0)

/-- Modelled from the spec: the fitted preprocessor's `transform` of one
record, given its numeric field values and categorical field values in the
fixed feature order: the scaled numeric block followed by the
concatenated one-hot blocks. -/
def encTransform (enc : FittedEncoder) (nums : List ℚ) (cats : List String) :
    List ℚ :=
  List.zipWith scaleNum enc.numStats nums ++
    (List.zipWith oneHotBlock enc.catVocabs cats).flatten

/-- The fixed output length of a fitted preprocessor: numeric field count
plus the total fit-time vocabulary size. -/
def vecLen (enc : FittedEncoder) : Nat :=
  enc.numStats.length + (enc.catVocabs.map List.length).sum

/-! ### Batched ingestion (`src/qdrant_ingest.py`) -/

/-- One row of `loan_applications_synthetic_time.csv` as read by the
ingestion loop: the columns used to build a point's payload
(`src/qdrant_ingest.py` lines 51–63).  `time_to_default_months` is the
already-null-checked integer value (`None if pd.isna(...) else int(...)`). -/
structure Row where
  application_id : String
  loan_status : String
  loan_outcome : String
  fraud_flag : Int
  fraud_type : String
  loan_type : String
  purpose_of_loan : String
  time_to_default_months : Option Int
deriving Inhabited, DecidableEq

/-- The payload dict built from a row (`src/qdrant_ingest.py` lines
51–63). -/
def mkPayload (row : Row) : Payload :=
  { application_id := row.application_id
    loan_status := row.loan_status
    loan_outcome := row.loan_outcome
    fraud_flag := row.fraud_flag
    fraud_type := row.fraud_type
    loan_type := row.loan_type
    purpose_of_loan := row.purpose_of_loan
    time_to_default_months := row.time_to_default_months }

/-- The point indices visited by the batched loop of
`src/qdrant_ingest.py` lines 43–48: `for start in range(0, total, b):
for idx in range(start, min(start + b, total))`, flattened.  Python's
`range(0, total, b)` requires a positive step, hence the `0 < b` guard. -/
def batchIds (start total b : Nat) : List Nat :=
  if _h : start < total ∧ 0 < b then
    List.range' start (min (start + b) total - start) ++
      batchIds (start + b) total b
  else []
termination_by total - start
decreasing_by omega

/-- The `PointStruct(id=idx, vector=vectors[idx], payload=payload)` list
produced by one ingestion run (`src/qdrant_ingest.py` lines 43–76) over a
corpus `rows` with vectors `vecs`, batch size `b`. -/
def ingestPoints (rows : List Row) (vecs : Nat → List ℚ) (b : Nat) :
    List (Nat × List ℚ × Payload) :=
  (batchIds 0 rows.length b).map
    (fun idx => (idx, vecs idx, mkPayload (rows.getD idx default)))

/-! ### Concrete instances used to evaluate the definitions -/

/-- A historical payload whose outcome label is produced by the labeler of
`src/synthetic_time_shift.py` on a young, non-fraudulent loan: 300 days of
elapsed age (≈ 9.9 months) against a 24-month tenure, no fraud, no
default, so the labeler writes its in-progress label. -/
def in_progress_case : Payload :=
  { application_id := "APP-000001"
    loan_status := "Approved"
    loan_outcome := loan_outcome 0 none (loan_age_months 300) 24
    fraud_flag := 0
    fraud_type := ""
    loan_type := "Personal Loan"
    purpose_of_loan := "Other"
    time_to_default_months := none }

/-- A three-row corpus used to evaluate the ingestion loop. -/
def sampleRows : List Row :=
  [{ application_id := "APP-000001", loan_status := "Approved",
     loan_outcome := "Repaid", fraud_flag := 0, fraud_type := "",
     loan_type := "Personal Loan", purpose_of_loan := "Other",
     time_to_default_months := none },
   { application_id := "APP-000002", loan_status := "Approved",
     loan_outcome := "Defaulted", fraud_flag := 1, fraud_type := "Identity",
     loan_type := "Auto Loan", purpose_of_loan := "Business",
     time_to_default_months := some 3 },
   { application_id := "APP-000003", loan_status := "Approved",
     loan_outcome := "In_Progress", fraud_flag := 0, fraud_type := "",
     loan_type := "Home Loan", purpose_of_loan := "Medical",
     time_to_default_months := none }]

/-- Two-case search result used to evaluate the fraud-case count: one
clean payload and one fraudulent payload. -/
def fraud_mix_results : List (Payload × ℚ) :=
  [({ application_id := "APP-000004", loan_status := "Approved",
      loan_outcome := "Repaid", fraud_flag := 0, fraud_type := "",
      loan_type := "Personal Loan", purpose_of_loan := "Other",
      time_to_default_months := none }, 1),
   ({ application_id := "APP-000005", loan_status := "Approved",
      loan_outcome := "Defaulted", fraud_flag := 1, fraud_type := "Identity",
      loan_type := "Auto Loan", purpose_of_loan := "Business",
      time_to_default_months := some 2 }, 1 / 2)]

/-- An encoder fitted on a corpus whose only categorical field
`loan_type` took the values Personal Loan and Auto Loan. -/
def sample_encoder : FittedEncoder :=
  { numStats := []
    catVocabs := [["Personal Loan", "Auto Loan"]] }

/-! ## Theorems -/

/-- The sum of a list of integers, each 0 or 1, equals the number of 1
entries.  This is how `int(sum(frauds))` in `find_similar_loans` turns the
0/1 `fraud_flag` payload values into a count. -/
theorem sum_eq_count_one : ∀ (l : List Int), (∀ x ∈ l, x = 0 ∨ x = 1) →
    l.sum = ((l.filter (fun x => x == 1)).length : Int) := by
  intro l
  induction l with
  | nil => intro _; rfl
  | cons a t ih =>
    intro h
    have ha := h a (List.mem_cons_self a t)
    have ht := ih (fun x hx => h x (List.mem_cons_of_mem a hx))
    rcases ha with h0 | h1
    · subst h0
      simp only [List.sum_cons, List.filter_cons]
      norm_num [ht]
    · subst h1
      simp only [List.sum_cons, List.filter_cons]
      norm_num [ht]
      omega

/-- C2: when the index returns no points, `find_similar_loans` returns the
zero-filled summary — `total_cases = 0`, all three percentages 0,
`fraud_cases = 0`, `avg_similarity = 0`, empty `cases` — wrapped in
`Except.ok`, i.e. it never raises in that case. -/
theorem find_similar_loans_empty_result_zero_summary :
    find_similar_loans (Except.ok []) =
      Except.ok { total_cases := 0
                  repaid_pct := 0
                  defaulted_pct := 0
                  in_progress_pct := 0
                  fraud_cases := 0
                  avg_similarity := 0
                  cases := [] } := rfl

/-- C6: when the nearest-neighbour query raises, `find_similar_loans`
re-raises an error whose message carries the underlying cause
(`"Qdrant search failed: " ++ e`) and returns no summary whatsoever: the
failure is never rendered as a zero-filled result. -/
theorem find_similar_loans_propagates_search_error (e : String) :
    find_similar_loans (Except.error e) =
      Except.error ("Qdrant search failed: " ++ e) ∧
    ∀ s : Summary, find_similar_loans (Except.error e) ≠ Except.ok s :=
  ⟨rfl, fun _ h => Except.noConfusion h⟩

/-- C3: any record with fraud flag 1 or a non-null months-to-default ≤ 6
is labeled `"Defaulted"`, for every loan age and tenure — in particular
even when the repaid-by-age condition (age ≥ tenure) also holds, so the
Defaulted rule takes precedence over the Repaid rule. -/
theorem loan_outcome_defaulted_precedence (fraud_flag : Int)
    (ttd : Option Int) (loan_age tenure : ℚ)
    (h : fraud_flag = 1 ∨ ∃ t, ttd = some t ∧ t ≤ 6) :
    loan_outcome fraud_flag ttd loan_age tenure = "Defaulted" := by
  have hd : fraud_flag = 1 ∨ earlyDefault ttd = true := by
    rcases h with h1 | ⟨t, ht, hle⟩
    · exact Or.inl h1
    · exact Or.inr (by simp [earlyDefault, ht, hle])
  have hnr : ¬ (tenure ≤ loan_age ∧ fraud_flag = 0 ∧
      ¬ (earlyDefault ttd = true)) := by
    rintro ⟨-, hf0, hne⟩
    rcases hd with h1 | h1
    · omega
    · exact hne h1
  unfold loan_outcome
  rw [if_neg hnr, if_pos hd]

/-- C3 witness: a fraudulent record (fraud flag 1, no recorded default
time) that also satisfies the repaid-by-age condition (age 24 ≥ tenure 12)
is still labeled Defaulted. -/
theorem loan_outcome_defaulted_precedence_witness :
    ((1 : Int) = 1 ∨ ∃ t, (none : Option Int) = some t ∧ t ≤ 6) ∧
    loan_outcome 1 none 24 12 = "Defaulted" :=
  ⟨Or.inl rfl, loan_outcome_defaulted_precedence 1 none 24 12 (Or.inl rfl)⟩

/-- C4: for a record with fraud flag 0 and null months-to-default, the
label is `"Repaid"` exactly when the elapsed loan age — the day count
divided by the fixed 30.44-day month length, rounded to one decimal —
reaches the contractual tenure, and `"In_Progress"` exactly when it falls
short of it. -/
theorem loan_outcome_repaid_iff_age_reaches_tenure (f : Int)
    (ttd : Option Int) (days : Int) (tenure : ℚ)
    (hf : f = 0) (ht : ttd = none) :
    (loan_outcome f ttd (loan_age_months days) tenure = "Repaid" ↔
      tenure ≤ loan_age_months days) ∧
    (loan_outcome f ttd (loan_age_months days) tenure = "In_Progress" ↔
      loan_age_months days < tenure) := by
  subst hf ht
  unfold loan_outcome earlyDefault
  by_cases hc : tenure ≤ loan_age_months days
  · simp [hc]
  · simp [hc, not_le.mp hc]

/-- C4 witness: a clean record aged 1000 days (32.9 months) against a
24-month tenure satisfies both equivalences. -/
theorem loan_outcome_repaid_iff_age_reaches_tenure_witness :
    ((0 : Int) = 0 ∧ (none : Option Int) = none) ∧
    ((loan_outcome 0 none (loan_age_months 1000) 24 = "Repaid" ↔
      (24 : ℚ) ≤ loan_age_months 1000) ∧
    (loan_outcome 0 none (loan_age_months 1000) 24 = "In_Progress" ↔
      loan_age_months 1000 < 24)) :=
  ⟨⟨rfl, rfl⟩, loan_outcome_repaid_iff_age_reaches_tenure 0 none 1000 24 rfl rfl⟩

/-- C7: the risk segment is High exactly when `defaulted_pct > 60`,
Moderate exactly when `30 < defaulted_pct ≤ 60`, Low exactly when
`defaulted_pct ≤ 30`. -/
theorem risk_segment_thresholds (d : ℚ) :
    (risk_segment d = "High Risk (Similarity-Based)" ↔ 60 < d) ∧
    (risk_segment d = "Moderate Risk (Similarity-Based)" ↔ 30 < d ∧ d ≤ 60) ∧
    (risk_segment d = "Low Risk (Similarity-Based)" ↔ d ≤ 30) := by
  unfold risk_segment
  split_ifs with h1 h2
  · refine ⟨⟨fun _ => h1, fun _ => rfl⟩,
      ⟨fun h => absurd h (by decide), fun h => absurd h1 (by linarith [h.2])⟩,
      ⟨fun h => absurd h (by decide), fun h => absurd h1 (by linarith)⟩⟩
  · refine ⟨⟨fun h => absurd h (by decide), fun h => absurd h1 (by linarith)⟩,
      ⟨fun _ => ⟨h2, by linarith⟩, fun _ => rfl⟩,
      ⟨fun h => absurd h (by decide), fun h => absurd h2 (by linarith)⟩⟩
  · refine ⟨⟨fun h => absurd h (by decide), fun h => absurd h1 (by linarith)⟩,
      ⟨fun h => absurd h (by decide), fun h => absurd h2 (by linarith [h.1])⟩,
      ⟨fun _ => by linarith, fun _ => rfl⟩⟩

/-- C9: the debt-to-income derivation is total: whenever
`monthly_income > 0` it is the genuine quotient `existing_emis /
monthly_income` (the divisor provably nonzero), and otherwise it is
defined as 0, so the division branch is only ever taken with a nonzero
divisor. -/
theorem debt_to_income_guarded_total (emis income : ℚ) :
    (0 < income ∧ income ≠ 0 ∧ debt_to_income emis income = emis / income) ∨
    (income ≤ 0 ∧ debt_to_income emis income = 0) := by
  unfold debt_to_income
  by_cases h : income > 0
  · exact Or.inl ⟨h, ne_of_gt h, if_pos h⟩
  · exact Or.inr ⟨le_of_not_lt h, if_neg h⟩

/-- C1 (code bug): the labeler of `synthetic_time_shift.py` writes the
label `"In_Progress"` (underscore) for a young clean loan, but
`find_similar_loans` counts the string `"In Progress"` (space) for
`in_progress_pct`; on a single-case result carrying the labeler's own
label, all three percentages are 0 while `total_cases = 1`, so
`repaid_pct + defaulted_pct + in_progress_pct = 0 ≠ 100` and the payload's
outcome is counted in none of the three buckets. -/
theorem find_similar_loans_misses_labeler_in_progress :
    loan_outcome 0 none (loan_age_months 300) 24 = "In_Progress" ∧
    find_similar_loans (Except.ok [(in_progress_case, 1)]) =
      Except.ok { total_cases := 1
                  repaid_pct := 0
                  defaulted_pct := 0
                  in_progress_pct := 0
                  fraud_cases := 0
                  avg_similarity := 1
                  cases := [in_progress_case] } := by
  have h2 : loan_age_months 300 = 99 / 10 := by
    unfold loan_age_months
    norm_num [round_eq]
  have h : loan_outcome 0 none (loan_age_months 300) 24 = "In_Progress" := by
    rw [h2]
    unfold loan_outcome earlyDefault
    norm_num
  exact ⟨h, by simp [find_similar_loans, in_progress_case, h]⟩

/-- C8: on a non-empty result whose payloads all carry an integer
`fraud_flag` of 0 or 1 (as written at ingestion), the summary's
`fraud_cases` equals the number of returned payloads whose fraud flag is
1, and `total_cases` is the number of returned payloads. -/
theorem find_similar_loans_fraud_cases_counts_flags
    (results : List (Payload × ℚ)) (hne : results ≠ [])
    (hflags : ∀ p ∈ results.map Prod.fst,
      p.fraud_flag = 0 ∨ p.fraud_flag = 1) :
    Except.map (fun s => (s.total_cases, s.fraud_cases))
        (find_similar_loans (Except.ok results)) =
      Except.ok (results.length,
        (((results.map Prod.fst).filter
          (fun p => p.fraud_flag == 1)).length : Int)) := by
  have hpe : (results.map Prod.fst).isEmpty = false := by
    cases results with
    | nil => exact absurd rfl hne
    | cons a t => rfl
  have h1 : ((results.map Prod.fst).map Payload.fraud_flag).sum =
      ((((results.map Prod.fst).map Payload.fraud_flag).filter
        (fun x => x == 1)).length : Int) := by
    apply sum_eq_count_one
    intro x hx
    obtain ⟨p, hp, rfl⟩ := List.mem_map.mp hx
    exact hflags p hp
  rw [List.filter_map] at h1
  simp only [find_similar_loans, hpe, Bool.false_eq_true, if_false,
    Except.map]
  simp only [List.map_map] at h1 ⊢
  simp [h1, Function.comp]
  rfl

/-- C8 witness: one clean and one fraudulent payload give
`total_cases = 2` and `fraud_cases = 1`. -/
theorem find_similar_loans_fraud_cases_counts_flags_witness :
    (fraud_mix_results ≠ [] ∧
      ∀ p ∈ fraud_mix_results.map Prod.fst,
        p.fraud_flag = 0 ∨ p.fraud_flag = 1) ∧
    Except.map (fun s => (s.total_cases, s.fraud_cases))
        (find_similar_loans (Except.ok fraud_mix_results)) =
      Except.ok (fraud_mix_results.length,
        (((fraud_mix_results.map Prod.fst).filter
          (fun p => p.fraud_flag == 1)).length : Int)) :=
  ⟨⟨by decide, by decide⟩,
    find_similar_loans_fraud_cases_counts_flags fraud_mix_results
      (by decide) (by decide)⟩

/-- A one-hot block for a value outside the fit-time vocabulary is all
zeros (the `handle_unknown="ignore"` behaviour). -/
theorem oneHotBlock_unknown : ∀ (vocab : List String) (v : String),
    v ∉ vocab → oneHotBlock vocab v = List.replicate vocab.length 0 := by
  intro vocab v
  induction vocab with
  | nil => intro _; rfl
  | cons c t ih =>
    intro h
    have hcv : ¬ c = v := fun e => h (e ▸ List.mem_cons_self c t)
    have hvt : v ∉ t := fun hv => h (List.mem_cons_of_mem c hv)
    simp only [oneHotBlock, List.map_cons, if_neg hcv, List.length_cons,
      List.replicate_succ]
    exact congrArg (List.cons 0) (ih hvt)

/-- Each one-hot block has the length of its field's vocabulary,
independently of the encoded value. -/
theorem zipWith_oneHotBlock_lengths : ∀ (vocabs : List (List String))
    (cats : List String), cats.length = vocabs.length →
    (List.zipWith oneHotBlock vocabs cats).map List.length =
      vocabs.map List.length := by
  intro vocabs
  induction vocabs with
  | nil => intro cats _; simp
  | cons voc t ih =>
    intro cats h
    cases cats with
    | nil => simp at h
    | cons c ct =>
      simp only [List.zipWith_cons_cons, List.map_cons]
      refine congrArg₂ List.cons ?_ (ih ct (by simpa using h))
      simp [oneHotBlock]

/-- C5: transforming a record whose `i`-th categorical value is outside
that field's fit-time vocabulary succeeds and yields the fixed fitted
output: field `i`'s one-hot positions are an all-zero block of the
vocabulary's width, every other position is as usual, and the total
length is the fitted length (numeric count plus total vocabulary
size). -/
theorem encTransform_unknown_category_zero_block (enc : FittedEncoder)
    (nums : List ℚ) (cats : List String) (i : Nat)
    (hi : i < enc.catVocabs.length)
    (hn : nums.length = enc.numStats.length)
    (hc : cats.length = enc.catVocabs.length)
    (hunk : cats.getD i "" ∉ enc.catVocabs.getD i []) :
    encTransform enc nums cats =
      List.zipWith scaleNum enc.numStats nums ++
        ((List.zipWith oneHotBlock enc.catVocabs cats).take i).flatten ++
        List.replicate (enc.catVocabs.getD i []).length 0 ++
        ((List.zipWith oneHotBlock enc.catVocabs cats).drop (i + 1)).flatten ∧
    (encTransform enc nums cats).length = vecLen enc := by
  have hic : i < cats.length := hc ▸ hi
  have hbl : (List.zipWith oneHotBlock enc.catVocabs cats).length =
      enc.catVocabs.length := by
    rw [List.length_zipWith, hc, min_self]
  have hib : i < (List.zipWith oneHotBlock enc.catVocabs cats).length :=
    hbl ▸ hi
  constructor
  · unfold encTransform
    conv_lhs =>
      rw [← List.take_append_drop i
        (List.zipWith oneHotBlock enc.catVocabs cats),
        List.drop_eq_getElem_cons hib]
    rw [List.flatten_append, List.flatten_cons]
    have hgz : (List.zipWith oneHotBlock enc.catVocabs cats)[i] =
        oneHotBlock enc.catVocabs[i] cats[i] := List.getElem_zipWith
    rw [hgz, List.getD_eq_getElem cats "" hic,
      List.getD_eq_getElem enc.catVocabs [] hi] at *
    rw [oneHotBlock_unknown _ _ hunk]
    simp [List.append_assoc]
  · unfold encTransform vecLen
    rw [List.length_append, List.length_zipWith, hn, min_self,
      List.length_flatten, zipWith_oneHotBlock_lengths enc.catVocabs cats hc]

/-- C5 witness: an encoder fitted on `loan_type ∈ {Personal Loan, Auto
Loan}` transforms a record with `loan_type = "Home Loan"` to the all-zero
two-wide block `[0, 0]`, of the fitted length. -/
theorem encTransform_unknown_category_zero_block_witness :
    (0 < sample_encoder.catVocabs.length ∧
      ([] : List ℚ).length = sample_encoder.numStats.length ∧
      (["Home Loan"] : List String).length = sample_encoder.catVocabs.length ∧
      (["Home Loan"] : List String).getD 0 "" ∉
        sample_encoder.catVocabs.getD 0 []) ∧
    encTransform sample_encoder [] ["Home Loan"] = [0, 0] ∧
    (encTransform sample_encoder [] ["Home Loan"]).length =
      vecLen sample_encoder :=
  ⟨⟨by decide, by decide, by decide, by decide⟩, by
    have h := encTransform_unknown_category_zero_block sample_encoder []
      ["Home Loan"] 0 (by decide) (by decide) (by decide) (by decide)
    exact ⟨h.1.trans (by decide), h.2⟩⟩

/-- The batched loop of `qdrant_ingest.py` visits exactly the row
positions `start, start+1, …, total−1` when the batch size is positive:
unrolling one batch at a time yields a contiguous range. -/
theorem batchIds_eq (b : Nat) (hb : 0 < b) :
    ∀ (fuel start total : Nat), total - start ≤ fuel →
      batchIds start total b = List.range' start (total - start) := by
  intro fuel
  induction fuel with
  | zero =>
    intro start total h
    rw [batchIds]
    have hno : ¬ (start < total ∧ 0 < b) := by omega
    rw [dif_neg hno]
    have h0 : total - start = 0 := by omega
    rw [h0, List.range'_zero]
  | succ fuel ih =>
    intro start total h
    rw [batchIds]
    by_cases hlt : start < total
    · rw [dif_pos ⟨hlt, hb⟩, ih (start + b) total (by omega)]
      by_cases hble : start + b ≤ total
      · have h1 : min (start + b) total - start = b := by omega
        rw [h1, List.range'_append_1]
        have h2 : total - (start + b) + b = total - start := by omega
        rw [h2]
      · have h1 : min (start + b) total = total := by omega
        have h2 : total - (start + b) = 0 := by omega
        rw [h1, h2, List.range'_zero, List.append_nil]
    · rw [dif_neg (by omega)]
      have h0 : total - start = 0 := by omega
      rw [h0, List.range'_zero]

/-- C10: one ingestion run over a corpus assigns each point the id equal
to its zero-based row position — the point list is exactly
`(i, vectors[i], payload of row i)` for `i = 0 … N−1`, and its ids are
pairwise distinct.  The `application_id` enters only the payload, not the
id, and since a run is a deterministic function of the corpus, re-running
it on the same rows in the same order produces the same (id, vector,
payload) triples, which upsert then overwrites point for point. -/
theorem ingestPoints_ids_are_row_positions (rows : List Row)
    (vecs : Nat → List ℚ) (b : Nat) (hb : 0 < b) :
    ingestPoints rows vecs b =
      (List.range rows.length).map
        (fun i => (i, vecs i, mkPayload (rows.getD i default))) ∧
    ((ingestPoints rows vecs b).map Prod.fst).Nodup := by
  have h0 : batchIds 0 rows.length b = List.range rows.length := by
    rw [batchIds_eq b hb rows.length 0 rows.length (by omega)]
    rw [Nat.sub_zero, List.range_eq_range']
  constructor
  · unfold ingestPoints
    rw [h0]
  · unfold ingestPoints
    rw [h0, List.map_map]
    have hcomp : (Prod.fst ∘ fun i : Nat =>
        (i, vecs i, mkPayload (rows.getD i default))) = fun i : Nat => i :=
      rfl
    rw [hcomp]
    simpa using List.nodup_range rows.length

/-- C10 witness: ingesting the three-row sample corpus with the source's
batch size 500 yields points with ids 0, 1, 2 in row order, pairwise
distinct. -/
theorem ingestPoints_ids_are_row_positions_witness :
    0 < 500 ∧
    (ingestPoints sampleRows (fun _ => []) 500 =
      (List.range sampleRows.length).map
        (fun i => (i, (fun _ : Nat => ([] : List ℚ)) i,
          mkPayload (sampleRows.getD i default))) ∧
    ((ingestPoints sampleRows (fun _ => []) 500).map Prod.fst).Nodup) :=
  ⟨by decide,
    ingestPoints_ids_are_row_positions sampleRows (fun _ => []) 500
      (by decide)⟩
